import Mathlib

/-!
Shallow embedding of the lab board power-control tool.

The Rust sources embedded here are:
* `src/ykcmd/mod.rs` — hub command adapter and power control engine
  (`format_command`, `power`, `port_status`, `power_off`, `power_on`,
  `reboot`, `is_powered`, `power_off_board`, `goodnight`);
* `src/boards/mod.rs` — board registry (`Board`, `populate_board`,
  `populate_uart`, `get_board_from_config`, `get_all_boards_from_config`)
  and the boot-verification expect session (`expect_boot`);
* `src/main.rs` — CLI argument defaults and command dispatch.

External processes (the hub tools invoked through `sh -c`) are modelled by
an environment `Env` mapping the exact shell command line to the observed
`CmdOutput` (exit status and standard output).  Every operation returns,
next to its result, the list of external calls it issued, so that claims
about call counts and ordering can be stated.  Rust panics (`unwrap` on
`None`) are modelled by the `Outcome.panicked` constructor.
-/

namespace Lab

/-- Remainder of `s` after the first occurrence of `p` as a contiguous
subsequence, `none` when `p` does not occur.  This models both Rust's
`str::contains` (via `Option.isSome`) and the sequential consumption a
`rexpect` expect session performs on the serial byte stream. -/
def scan (p : List Char) : List Char → Option (List Char)
  | [] => if p.isEmpty then some [] else none
  | c :: t =>
    if p.isPrefixOf (c :: t) then some ((c :: t).drop p.length)
    else scan p t

/-- Rust `haystack.contains(needle)` — substring containment. -/
def containsSub (haystack needle : String) : Bool :=
  (scan needle.data haystack.data).isSome

/-- Observed output of one external process invocation (`std::process::Command`):
the exit status (`status.success()`) and the captured standard output. -/
structure CmdOutput where
  success : Bool
  stdout : String

/-- The external world: what each shell command line produces when run. -/
structure Env where
  run : String → CmdOutput

/-- One externally observable action of the engine. -/
inductive Call where
  | list (cmd : String)
  | set (cmd serial : String) (d : Char) (port : String)
  | get (cmd serial port : String)
  | sleep (ms : Nat)
deriving DecidableEq, Repr

/-- Errors surfaced by the tool: `ykmd` models `YkmdError` (message as in the
source), `config` models `ConfigParsingError`, `external` models errors
propagated from file reading / YAML parsing. -/
inductive LabError where
  | ykmd (details : String)
  | config (details : String)
  | external (details : String)
deriving DecidableEq, Repr

/-- Error `YkmdError::new("Unsupported yk board type")` from `format_command`. -/
def unsupportedHubKind : LabError := .ykmd "Unsupported yk board type"

/-- Error `YkmdError::new(format!("board with serial {} not found", serial))`. -/
def boardNotAttached (serial : String) : LabError :=
  .ykmd ("board with serial " ++ serial ++ " not found")

/-- Error `YkmdError::new("failed to power direction")` from `power`. -/
def hubOperationFailed : LabError := .ykmd "failed to power direction"

/-- Error `YkmdError::new("failed to get port status")` from `port_status`. -/
def portStatusFailed : LabError := .ykmd "failed to get port status"

/-- Shell line of the hub listing sub-command: `format!("{} -l ", command)`. -/
def listCmdLine (command : String) : String := command ++ " -l "

/-- Shell line of the set-state sub-command:
`format!("{} -s {} -{} {}", command, serial, d, port)`. -/
def setCmdLine (command serial : String) (d : Char) (port : String) : String :=
  command ++ " -s " ++ serial ++ " -" ++ d.toString ++ " " ++ port

/-- Shell line of the get-state sub-command:
`format!("{} -s {} -g {}", command, serial, port)`. -/
def getCmdLine (command serial port : String) : String :=
  command ++ " -s " ++ serial ++ " -g " ++ port

/-- Model of `ykcmd::format_command`: maps the power-source kind to the external
hub tool invocation, failing on anything outside the known enumeration. -/
def format_command (yk_board_type : String) : Except LabError String :=
  if yk_board_type = "usb" then .ok "ykushcmd ykush"
  else if yk_board_type = "relay" then .ok "ykurcmd"
  else .error unsupportedHubKind

/-- Model of `ykcmd::power`: runs the set-state sub-command (direction flag is the
first character of `direction`) and fails when the process exits non-zero. -/
def power (_board serial port direction command : String) (env : Env) :
    Except LabError Unit × List Call :=
  let d := direction.front
  let out := env.run (setCmdLine command serial d port)
  if out.success then (.ok (), [Call.set command serial d port])
  else (.error hubOperationFailed, [Call.set command serial d port])

/-- Model of `ykcmd::port_status`: runs the get-state sub-command; non-zero exit is a
plain failure, otherwise any output containing `"ON"` reads as on and
everything else as off. -/
def port_status (serial port command : String) (env : Env) :
    Except LabError Bool × List Call :=
  let out := env.run (getCmdLine command serial port)
  if out.success then
    if containsSub out.stdout "ON" then (.ok true, [Call.get command serial port])
    else (.ok false, [Call.get command serial port])
  else (.error portStatusFailed, [Call.get command serial port])

/-- Model of `ykcmd::power_off`: resolve the hub tool, list attached hubs, fail when the
serial number is absent from the listing, otherwise set the port down. -/
def power_off (board_name serial_number port_number power_source : String)
    (env : Env) : Except LabError Unit × List Call :=
  match format_command power_source with
  | .error e => (.error e, [])
  | .ok command =>
    let out := env.run (listCmdLine command)
    if containsSub out.stdout serial_number then
      let pr := power board_name serial_number port_number "down" command env
      (pr.1, Call.list command :: pr.2)
    else
      (.error (boardNotAttached serial_number), [Call.list command])

/-- Model of `ykcmd::power_on`: same as `power_off` with direction up. -/
def power_on (board_name serial_number port_number power_source : String)
    (env : Env) : Except LabError Unit × List Call :=
  match format_command power_source with
  | .error e => (.error e, [])
  | .ok command =>
    let out := env.run (listCmdLine command)
    if containsSub out.stdout serial_number then
      let pr := power board_name serial_number port_number "up" command env
      (pr.1, Call.list command :: pr.2)
    else
      (.error (boardNotAttached serial_number), [Call.list command])

/-- Model of `ykcmd::reboot`: `power_off` then `thread::sleep(1000 ms)` then
`power_on`, each error propagated by `?`. -/
def reboot (board_name serial_number port_number power_source : String)
    (env : Env) : Except LabError Unit × List Call :=
  match power_off board_name serial_number port_number power_source env with
  | (.error e, t) => (.error e, t)
  | (.ok _, t) =>
    let pr := power_on board_name serial_number port_number power_source env
    (pr.1, t ++ Call.sleep 1000 :: pr.2)

/-- Model of `boards::Board`: identity and control parameters of one physical unit. -/
structure Board where
  name : String
  yk_serial_number : String
  yk_port_number : String
  power_source : String
  powered : Bool
  primary_uart : String
deriving DecidableEq, Repr

/-- Model of `impl Default for Board`: every field the placeholder `"n/a"`,
`powered` false. -/
def Board.default : Board :=
  { name := "n/a", yk_serial_number := "n/a", yk_port_number := "n/a",
    power_source := "n/a", powered := false, primary_uart := "n/a" }

/-- Model of `ykcmd::is_powered`: resolve the hub tool, list attached hubs, fail when
the board's serial number is absent, otherwise query the port state. -/
def is_powered (board : Board) (env : Env) : Except LabError Bool × List Call :=
  match format_command board.power_source with
  | .error e => (.error e, [])
  | .ok command =>
    let out := env.run (listCmdLine command)
    if containsSub out.stdout board.yk_serial_number then
      let pr := port_status board.yk_serial_number board.yk_port_number command env
      (pr.1, Call.list command :: pr.2)
    else
      (.error (boardNotAttached board.yk_serial_number), [Call.list command])

/-- Predicate for `Call.set` with direction flag `u` — the on-call of the hub protocol. -/
def isUpCall : Call → Bool
  | .set _ _ d _ => d = 'u'
  | _ => false

/-- The states of the boot-verification session in `Board::expect_boot`:
one state per pending `exp_regex`, terminal once the post-login shell
prompt has been seen. -/
inductive BootState where
  | awaitingBootloader
  | awaitingKernel
  | awaitingInit
  | awaitingLogin
  | awaitingPassword
  | awaitingPrompt
  | loggedIn
deriving DecidableEq, Repr

/-- The bootloader banner marker: `exp_regex(".*U-Boot.*")`. -/
def markerBootloader : List Char := "U-Boot".data

/-- The kernel banner marker: `exp_regex(".*Linux version.*")`. -/
def markerKernel : List Char := "Linux version".data

/-- The init-process marker: `exp_regex(".*init.*")`. -/
def markerInit : List Char := "init".data

/-- The login prompt marker: `exp_regex(".*login: .*")`. -/
def markerLogin : List Char := "login: ".data

/-- The password prompt marker: `exp_regex(".*assword: ")`. -/
def markerPassword : List Char := "assword: ".data

/-- The post-login shell prompt marker: `exp_regex(".*#.*")`. -/
def markerPrompt : List Char := "#".data

/-- The pattern sequence of `Board::expect_boot`, in source order: the six
`exp_regex` literals (their regular expressions reduce to substring search
for these markers). -/
def bootMarkers : List (List Char) :=
  [markerBootloader, markerKernel, markerInit,
   markerLogin, markerPassword, markerPrompt]

/-- The five boot markers named by the specification (bootloader banner,
kernel version, init, login prompt, password prompt). -/
def fiveBootMarkers : List (List Char) :=
  [markerBootloader, markerKernel, markerInit, markerLogin, markerPassword]

/-- Sequentially match each pattern against the remaining stream, consuming
through the first occurrence; returns how many patterns matched before the
session stalls (a stalled session blocks until the `rexpect` timeout). -/
def expectSeq : List (List Char) → List Char → Nat
  | [], _ => 0
  | p :: ps, s =>
    match scan p s with
    | none => 0
    | some r => expectSeq ps r + 1

/-- State of the `expect_boot` session after it matched `n` patterns. -/
def bootStateOfCount : Nat → BootState
  | 0 => .awaitingBootloader
  | 1 => .awaitingKernel
  | 2 => .awaitingInit
  | 3 => .awaitingLogin
  | 4 => .awaitingPassword
  | 5 => .awaitingPrompt
  | _ => .loggedIn

/-- Model of `Board::expect_boot` on a given serial text stream: drive the six
expect patterns in order and report the state reached. -/
def expect_boot (stream : List Char) : BootState :=
  bootStateOfCount (expectSeq bootMarkers stream)

/-- The session timeout handed to `rexpect::session::spawn_stream`
in `expect_boot` and `expect_shutdown`, in milliseconds. -/
def bootTimeoutMillis : Nat := 120000

/-- The serial stream contains the given markers in order: each marker
occurs, and occurs after (the consumed part of) the previous one. -/
inductive MarksInOrder : List (List Char) → List Char → Prop where
  | nil (s : List Char) : MarksInOrder [] s
  | cons (p : List Char) (ps : List (List Char)) (x y : List Char) :
      MarksInOrder ps y → MarksInOrder (p :: ps) (x ++ p ++ y)

/-- Model of `serde_yaml::Value`, restricted to the shapes the tool inspects. -/
inductive Value where
  | null
  | bool (b : Bool)
  | num (n : Int)
  | str (s : String)
  | seq (xs : List Value)
  | map (xs : List (Value × Value))

/-- Key lookup inside a YAML mapping: `Value::get(key)` compares each key
against `Value::String(key)`, so only string keys can match. -/
def getKey (xs : List (Value × Value)) (key : String) : Option Value :=
  match xs with
  | [] => none
  | (Value.str s, v) :: rest => if s = key then some v else getKey rest key
  | _ :: rest => getKey rest key

/-- Model of `Value::get` with a string index: a lookup on mappings, `None` on every
other YAML shape. -/
def Value.get (v : Value) (key : String) : Option Value :=
  match v with
  | .map xs => getKey xs key
  | _ => none

/-- Model of `Value::as_str`. -/
def Value.as_str : Value → Option String
  | .str s => some s
  | _ => none

/-- Model of `Value::as_mapping`. -/
def Value.as_mapping : Value → Option (List (Value × Value))
  | .map xs => some xs
  | _ => none

/-- Model of `boards::populate_uart`: re-reads the serial number, then requires the
`uart` table with `pattern` and `primary` strings and derives the device
path `/dev/serial/by-id/<pattern>-<primary>`. -/
def populate_uart (board : Board) (board_config : Value) :
    Except LabError Board :=
  match board_config.get "serial" with
  | none => .error (.config "No serial number found")
  | some sv =>
    match sv.as_str with
    | none => .error (.config "Serial number was not a string")
    | some serial =>
      let board := { board with yk_serial_number := serial }
      match board_config.get "uart" with
      | none => .error (.config "No uart config found")
      | some uart_config =>
        match uart_config.get "pattern" with
        | none => .error (.config "No uart pattern found")
        | some pv =>
          match pv.as_str with
          | none => .error (.config "uart pattern was not a string")
          | some uart_by_id =>
            match uart_config.get "primary" with
            | none => .error (.config "No uart primary found")
            | some prv =>
              match prv.as_str with
              | none => .error (.config "uart primary was not a string")
              | some uart_primary =>
                .ok { board with
                      primary_uart :=
                        "/dev/serial/by-id/" ++ uart_by_id ++ "-" ++ uart_primary }

/-- Model of `boards::populate_board`: requires `serial`, `port` and `type` as
strings, then runs `populate_uart` and discards its result
(`let _who_cares = ...`), keeping whatever fields it managed to set. -/
def populate_board (board : Board) (board_config : Value) :
    Except LabError Board :=
  match board_config.get "serial" with
  | none => .error (.config "No serial number found")
  | some sv =>
    match sv.as_str with
    | none => .error (.config "Serial number was not a string")
    | some serial =>
      match board_config.get "port" with
      | none => .error (.config "No port number found")
      | some pv =>
        match pv.as_str with
        | none => .error (.config "Port number was not a string")
        | some port =>
          match board_config.get "type" with
          | none => .error (.config "No type found")
          | some tv =>
            match tv.as_str with
            | none => .error (.config "Type was not a string")
            | some ptype =>
              let filled := { board with
                              yk_serial_number := serial,
                              yk_port_number := port,
                              power_source := ptype }
              match populate_uart filled board_config with
              | .ok updated => .ok updated
              | .error _ => .ok filled

/-- Model of `boards::get_board_from_config`, with the file read and YAML parse of
`input_file` abstracted into the `load` outcome. -/
def get_board_from_config (board_name : String)
    (load : Except LabError Value) : Except LabError Board :=
  match load with
  | .error e => .error e
  | .ok config =>
    match config.get "boards" with
    | none => .error (.config "No boards found")
    | some boards_val =>
      match boards_val.get board_name with
      | none => .error (.config "Requested board not found")
      | some board_config =>
        populate_board { Board.default with name := board_name } board_config

/-- Result of a Rust function that may also panic (`unwrap` on `None`). -/
inductive Outcome (α : Type) where
  | ok (a : α)
  | err (e : LabError)
  | panicked (msg : String)
deriving DecidableEq, Repr

/-- The loop body of `get_all_boards_from_config`: build a `Board` per
mapping entry in order, aborting on the first error. -/
def boardsFromEntries : List (Value × Value) → Outcome (List Board)
  | [] => .ok []
  | (k, v) :: rest =>
    match k.as_str with
    | none => .err (.config "name was not a string")
    | some board_name =>
      match populate_board { Board.default with name := board_name } v with
      | .error e => .err e
      | .ok b =>
        match boardsFromEntries rest with
        | .ok bs => .ok (b :: bs)
        | other => other

/-- Model of `boards::get_all_boards_from_config`: requires the `boards` key, then
calls `.as_mapping().unwrap()` — a panic when the value is not a mapping —
and builds every board in mapping order. -/
def get_all_boards_from_config (load : Except LabError Value) :
    Outcome (List Board) :=
  match load with
  | .error e => .err e
  | .ok config =>
    match config.get "boards" with
    | none => .err (.config "No boards found")
    | some boards_val =>
      match boards_val.as_mapping with
      | none => .panicked "called Option unwrap on a None value"
      | some entries => boardsFromEntries entries

/-- Model of `ykcmd::power_off_board`: look the board up in the config (re-reading
the file, here the same `load` outcome) and power it off. -/
def power_off_board (board_name : String) (load : Except LabError Value)
    (env : Env) : Except LabError Unit × List Call :=
  match get_board_from_config board_name load with
  | .error e => (.error e, [])
  | .ok board =>
    power_off board.name board.yk_serial_number board.yk_port_number
      board.power_source env

/-- The `for` loop of `ykcmd::goodnight`: `board.0.as_str().unwrap()`
panics on a non-string key; otherwise `power_off_board`'s result is
discarded (`let _ = ...`) and the sweep continues. -/
def goodnightLoop (entries : List (Value × Value))
    (load : Except LabError Value) (env : Env) : Outcome Unit × List Call :=
  match entries with
  | [] => (.ok (), [])
  | (k, _) :: rest =>
    match k.as_str with
    | none => (.panicked "called Option unwrap on a None value", [])
    | some board_name =>
      let pr := power_off_board board_name load env
      let gr := goodnightLoop rest load env
      (gr.1, pr.2 ++ gr.2)

/-- Model of `ykcmd::goodnight`: load the registry (fatal on failure), then sweep
every board with `power_off_board`, ignoring per-board failures. -/
def goodnight (load : Except LabError Value) (env : Env) :
    Outcome Unit × List Call :=
  match load with
  | .error e => (.err e, [])
  | .ok config =>
    match config.get "boards" with
    | none => (.err (.config "No boards found"), [])
    | some boards_val =>
      match boards_val.as_mapping with
      | none => (.err (.ykmd "No boards found"), [])
      | some entries => goodnightLoop entries load env

/-- The `--config` flag default in `main.rs`'s `Args`. -/
def argsConfigDefault : String := "config.yaml"

/-- The `--board` flag default in `main.rs`'s `Args`. -/
def argsBoardDefault : String := "icicle"

/-- The `--function` flag default in `main.rs`'s `Args`. -/
def argsFunctionDefault : String := "off"

/-- The four dispatch targets of the `match args.function.as_str()` in
`main`: `turn_off_board`, `reboot_board`, `goodnight`, or the
`Invalid function` error (a non-zero exit status). -/
inductive MainAction where
  | turnOff
  | rebootSeq
  | goodnightSweep
  | invalidFunction
deriving DecidableEq, Repr

/-- The command dispatch of `main.rs`: `"off"` powers down, `"on"` and
`"reboot"` both run the reboot sequence, `"goodnight"` sweeps, anything
else is an error. -/
def mainDispatch (function : String) : MainAction :=
  if function = "off" then .turnOff
  else if function = "on" then .rebootSeq
  else if function = "reboot" then .rebootSeq
  else if function = "goodnight" then .goodnightSweep
  else .invalidFunction

/-- A serial stream holding the six expect patterns of `expect_boot`
in source order and nothing else. -/
def streamSixInOrder : List Char :=
  markerBootloader ++ (markerKernel ++ (markerInit ++
    (markerLogin ++ (markerPassword ++ (markerPrompt ++ [])))))

/-- A serial stream holding exactly the five boot markers named by the
specification, in order, with no subsequent shell prompt. -/
def streamFiveInOrder : List Char :=
  markerBootloader ++ (markerKernel ++ (markerInit ++
    (markerLogin ++ (markerPassword ++ []))))

/-- The five boot markers in reversed relative order. -/
def streamReversed : List Char :=
  markerPassword ++ markerLogin ++ markerInit ++ markerKernel ++ markerBootloader

/-- An external world in which every process succeeds and prints `S1`:
the hub listing therefore contains serial number `S1`. -/
def envAllGood : Env := { run := fun _ => { success := true, stdout := "S1" } }

/-- An external world in which every process succeeds but the listing
output never mentions any serial number of interest. -/
def envNotAttached : Env :=
  { run := fun _ => { success := true, stdout := "no hubs here" } }

/-- An external world in which every process fails with empty-marker
output (no `ON`, no `OFF`). -/
def envFailBlank : Env :=
  { run := fun _ => { success := false, stdout := "blank" } }

/-- An external world in which every process fails while printing the
`ON` marker. -/
def envFailOnMarker : Env :=
  { run := fun _ => { success := false, stdout := "ON" } }

/-- An external world whose processes succeed with an `OFF` state output
that also contains serial `S1`. -/
def envOffState : Env :=
  { run := fun _ => { success := true, stdout := "S1 OFF" } }

/-- A fully specified usb-hub board. -/
def usbBoard : Board :=
  { name := "icicle", yk_serial_number := "S1", yk_port_number := "1",
    power_source := "usb", powered := false, primary_uart := "n/a" }

/-- A board whose power-source kind is outside the known enumeration. -/
def gpioBoard : Board :=
  { name := "beagle", yk_serial_number := "S2", yk_port_number := "2",
    power_source := "gpio", powered := false, primary_uart := "n/a" }

/-- The board value produced from `cfgNoUartBoard` starting from the
default record: control fields populated, `primary_uart` left at the
default placeholder. -/
def boardNoUart : Board :=
  { name := "n/a", yk_serial_number := "S1", yk_port_number := "1",
    power_source := "usb", powered := false, primary_uart := "n/a" }

/-- The board value produced for entry `a` of `cfgTwoBoards`. -/
def boardA : Board :=
  { name := "a", yk_serial_number := "S1", yk_port_number := "1",
    power_source := "usb", powered := false, primary_uart := "n/a" }

/-- A board-level config table with `serial`, `port` and `type` but
without any `uart` table. -/
def cfgNoUartBoard : Value :=
  .map [(.str "serial", .str "S1"), (.str "port", .str "1"),
        (.str "type", .str "usb")]

/-- A top-level config whose `boards` key holds a plain string instead of
a mapping. -/
def cfgNotMapping : Value := .map [(.str "boards", .str "oops")]

/-- A top-level config whose `boards` mapping has a non-string key. -/
def cfgBadKey : Value := .map [(.str "boards", .map [(.num 1, .null)])]

/-- A two-board registry: board `a` is a reachable usb board, board `b`
has an unsupported power-source kind, so its `power_off` fails. -/
def cfgTwoBoards : Value :=
  .map [(.str "boards", .map
    [(.str "a", .map [(.str "serial", .str "S1"), (.str "port", .str "1"),
                      (.str "type", .str "usb")]),
     (.str "b", .map [(.str "serial", .str "S2"), (.str "port", .str "2"),
                      (.str "type", .str "gpio")])])]

/-!  Helper lemmas about the expect-session scanner. -/

theorem scan_prefix (p s : List Char) (h : p.isPrefixOf s = true) :
    scan p s = some (s.drop p.length) := by
  cases s with
  | nil =>
    have hp : p = [] := by
      rw [List.isPrefixOf_iff_prefix] at h
      exact List.prefix_nil.mp h
    subst hp
    simp [scan]
  | cons c t => simp [scan, h]

theorem scan_finds (p : List Char) :
    ∀ x y : List Char, ∃ z, scan p (x ++ (p ++ y)) = some z ∧ y <:+ z := by
  intro x
  induction x with
  | nil =>
    intro y
    refine ⟨y, ?_, List.suffix_refl y⟩
    have hpre : p.isPrefixOf (p ++ y) = true := by
      rw [List.isPrefixOf_iff_prefix]
      exact List.prefix_append p y
    rw [List.nil_append, scan_prefix p _ hpre, List.drop_left]
  | cons c x' ih =>
    intro y
    by_cases hpre : p.isPrefixOf (c :: (x' ++ (p ++ y))) = true
    · refine ⟨(c :: (x' ++ (p ++ y))).drop p.length, ?_, ?_⟩
      · rw [List.cons_append]
        exact scan_prefix p _ hpre
      · have hzs : (c :: (x' ++ (p ++ y))).drop p.length <:+ c :: (x' ++ (p ++ y)) :=
          List.drop_suffix _ _
        have hys : y <:+ c :: (x' ++ (p ++ y)) := by
          have h1 : y <:+ p ++ y := List.suffix_append p y
          have h2 : y <:+ x' ++ (p ++ y) := h1.trans (List.suffix_append x' _)
          rw [← List.singleton_append]
          exact h2.trans (List.suffix_append [c] _)
        have hplen : p.length ≤ (c :: (x' ++ (p ++ y))).length := by
          rw [List.isPrefixOf_iff_prefix] at hpre
          exact hpre.length_le
        have hyl : y.length ≤ ((c :: (x' ++ (p ++ y))).drop p.length).length := by
          rw [List.length_drop]
          simp only [List.length_cons, List.length_append] at hplen ⊢
          omega
        rcases List.suffix_or_suffix_of_suffix hys hzs with h1 | h2
        · exact h1
        · rw [h2.eq_of_length_le hyl]
    · obtain ⟨z, hz, hs⟩ := ih y
      refine ⟨z, ?_, hs⟩
      rw [List.cons_append]
      simp only [scan, hpre, if_false, Bool.false_eq_true]
      exact hz

theorem marksInOrder_suffix {ps : List (List Char)} {y z : List Char}
    (h : MarksInOrder ps y) (hs : y <:+ z) : MarksInOrder ps z := by
  cases h with
  | nil => exact .nil z
  | cons p ps' x y' h' =>
    obtain ⟨w, rfl⟩ := hs
    rw [show w ++ (x ++ p ++ y') = (w ++ x) ++ p ++ y' by
      simp [List.append_assoc]]
    exact .cons p ps' (w ++ x) y' h'

theorem expectSeq_complete : ∀ (ps : List (List Char)) (s : List Char),
    MarksInOrder ps s → expectSeq ps s = ps.length := by
  intro ps
  induction ps with
  | nil => intro s _; simp [expectSeq]
  | cons p ps' ih =>
    intro s h
    cases h with
    | cons _ _ x y h' =>
      obtain ⟨z, hz, hsuf⟩ := scan_finds p x y
      rw [List.append_assoc]
      simp [expectSeq, hz, ih z (marksInOrder_suffix h' hsuf)]

/-!  Helper lemmas about the power-control engine. -/

theorem front_down : ("down" : String).front = 'd' := rfl

theorem front_up : ("up" : String).front = 'u' := rfl

theorem power_off_ok_cases (bn sn pn src : String) (env : Env) (u : Unit)
    (t : List Call) (h : power_off bn sn pn src env = (.ok u, t)) :
    ∃ c, format_command src = .ok c ∧
      containsSub (env.run (listCmdLine c)).stdout sn = true ∧
      (env.run (setCmdLine c sn 'd' pn)).success = true ∧
      t = [Call.list c, Call.set c sn 'd' pn] := by
  unfold power_off at h
  cases hf : format_command src with
  | error e => simp [hf] at h
  | ok c =>
    simp only [hf] at h
    by_cases hc : containsSub (env.run (listCmdLine c)).stdout sn = true
    · simp only [hc, if_true] at h
      unfold power at h
      simp only [front_down] at h
      by_cases hs : (env.run (setCmdLine c sn 'd' pn)).success = true
      · simp only [hs, if_true, Prod.mk.injEq] at h
        exact ⟨c, rfl, hc, hs, h.2.symm⟩
      · simp [hs] at h
    · simp [hc] at h

theorem power_on_ok_cases (bn sn pn src : String) (env : Env) (u : Unit)
    (t : List Call) (h : power_on bn sn pn src env = (.ok u, t)) :
    ∃ c, format_command src = .ok c ∧
      containsSub (env.run (listCmdLine c)).stdout sn = true ∧
      (env.run (setCmdLine c sn 'u' pn)).success = true ∧
      t = [Call.list c, Call.set c sn 'u' pn] := by
  unfold power_on at h
  cases hf : format_command src with
  | error e => simp [hf] at h
  | ok c =>
    simp only [hf] at h
    by_cases hc : containsSub (env.run (listCmdLine c)).stdout sn = true
    · simp only [hc, if_true] at h
      unfold power at h
      simp only [front_up] at h
      by_cases hs : (env.run (setCmdLine c sn 'u' pn)).success = true
      · simp only [hs, if_true, Prod.mk.injEq] at h
        exact ⟨c, rfl, hc, hs, h.2.symm⟩
      · simp [hs] at h
    · simp [hc] at h

theorem power_off_trace_shape (bn sn pn src : String) (env : Env) :
    (power_off bn sn pn src env).2 = [] ∨
    (∃ c, (power_off bn sn pn src env).2 = [Call.list c]) ∨
    (∃ c, (power_off bn sn pn src env).2 = [Call.list c, Call.set c sn 'd' pn]) := by
  unfold power_off
  cases hf : format_command src with
  | error e => left; rfl
  | ok c =>
    by_cases hc : containsSub (env.run (listCmdLine c)).stdout sn = true
    · right; right
      refine ⟨c, ?_⟩
      unfold power
      simp only [front_down, hc, if_true]
      by_cases hs : (env.run (setCmdLine c sn 'd' pn)).success = true
      · simp [hs]
      · simp [hs]
    · right; left
      exact ⟨c, by simp [hc]⟩

/-- Claim C1: `reboot` is `power_off`, then a sleep of exactly 1000 ms,
then `power_on`: a successful reboot issues exactly one off-call followed
by exactly one on-call (with the 1000 ms sleep between the two phases),
and when `power_off` fails, `reboot` returns that error having issued no
on-call at all. -/
theorem c1_reboot_off_then_on (bn sn pn src : String) (env : Env) :
    ((reboot bn sn pn src env).1 = .ok () →
      ∃ c, format_command src = .ok c ∧
        (reboot bn sn pn src env).2 =
          [Call.list c, Call.set c sn 'd' pn, Call.sleep 1000,
           Call.list c, Call.set c sn 'u' pn]) ∧
    (∀ e t, power_off bn sn pn src env = (.error e, t) →
      reboot bn sn pn src env = (.error e, t) ∧
      ∀ cl ∈ t, isUpCall cl = false) := by
  constructor
  · intro h
    rcases hpo : power_off bn sn pn src env with ⟨r1, t1⟩
    cases r1 with
    | error e =>
      have hr : reboot bn sn pn src env = (.error e, t1) := by
        unfold reboot; rw [hpo]
      rw [hr] at h
      simp at h
    | ok u =>
      obtain ⟨c, hf, hc, hs, ht1⟩ := power_off_ok_cases bn sn pn src env u t1 hpo
      rcases hpn : power_on bn sn pn src env with ⟨r2, t2⟩
      have hr : reboot bn sn pn src env = (r2, t1 ++ Call.sleep 1000 :: t2) := by
        unfold reboot; rw [hpo]; simp [hpn]
      rw [hr] at h
      simp only at h
      subst h
      obtain ⟨c2, hf2, hc2, hs2, ht2⟩ := power_on_ok_cases bn sn pn src env () t2 hpn
      have hcc : c = c2 := by
        have := hf.symm.trans hf2
        injection this
      refine ⟨c, hf, ?_⟩
      rw [hr, ht1, ht2, ← hcc]
      rfl
  · intro e t h
    refine ⟨by unfold reboot; rw [h], ?_⟩
    have hshape := power_off_trace_shape bn sn pn src env
    rw [h] at hshape
    intro cl hcl
    rcases hshape with h0 | ⟨c, h1⟩ | ⟨c, h2⟩
    · subst h0; simp at hcl
    · subst h1
      simp at hcl
      subst hcl
      rfl
    · subst h2
      simp at hcl
      rcases hcl with rfl | rfl <;> rfl

/-- Claim C1 witness: with an environment in which the hub tool always
succeeds and the board is attached, `reboot` issues the off-call, the
1000 ms sleep and the on-call in exactly that order; and with the board
absent from the listing, `power_off`'s error is returned with no on-call
issued. -/
theorem c1_reboot_off_then_on_witness :
    (reboot "icicle" "S1" "1" "usb" envAllGood).2 =
      [Call.list "ykushcmd ykush", Call.set "ykushcmd ykush" "S1" 'd' "1",
       Call.sleep 1000, Call.list "ykushcmd ykush",
       Call.set "ykushcmd ykush" "S1" 'u' "1"] ∧
    reboot "icicle" "S1" "1" "usb" envNotAttached
      = (.error (boardNotAttached "S1"), [Call.list "ykushcmd ykush"]) := by
  constructor
  · obtain ⟨c, hf, ht⟩ :=
      (c1_reboot_off_then_on "icicle" "S1" "1" "usb" envAllGood).1 (by rfl)
    have hcv : Except.ok (ε := LabError) "ykushcmd ykush" = .ok c := hf
    injection hcv with hcv
    rw [ht, ← hcv]
  · exact ((c1_reboot_off_then_on "icicle" "S1" "1" "usb" envNotAttached).2
      (boardNotAttached "S1") [Call.list "ykushcmd ykush"] (by rfl)).1

/-- Claim C2: for a board whose power-source kind is neither `usb` nor
`relay`, `power_on`, `power_off` and `is_powered` all fail with the
unsupported-hub-kind error and issue no external call at all. -/
theorem c2_unsupported_kind_no_calls (b : Board) (env : Env)
    (h1 : b.power_source ≠ "usb") (h2 : b.power_source ≠ "relay") :
    power_on b.name b.yk_serial_number b.yk_port_number b.power_source env
      = (.error unsupportedHubKind, []) ∧
    power_off b.name b.yk_serial_number b.yk_port_number b.power_source env
      = (.error unsupportedHubKind, []) ∧
    is_powered b env = (.error unsupportedHubKind, []) := by
  have hf : format_command b.power_source = .error unsupportedHubKind := by
    simp [format_command, h1, h2]
  refine ⟨?_, ?_, ?_⟩
  · unfold power_on; rw [hf]
  · unfold power_off; rw [hf]
  · unfold is_powered; rw [hf]

/-- Claim C2 witness: the `gpio` power-source kind is rejected without any
hub-tool invocation by all three operations. -/
theorem c2_unsupported_kind_no_calls_witness :
    power_on "beagle" "S2" "2" "gpio" envAllGood
      = (.error unsupportedHubKind, []) ∧
    power_off "beagle" "S2" "2" "gpio" envAllGood
      = (.error unsupportedHubKind, []) ∧
    is_powered gpioBoard envAllGood = (.error unsupportedHubKind, []) :=
  c2_unsupported_kind_no_calls gpioBoard envAllGood (by decide) (by decide)

/-- Claim C3: when the board's serial number is not a substring of the hub
listing output, `power_off`, `power_on` and `is_powered` all fail with the
board-not-attached error having issued only the list call — never a
set-port or get-state call. -/
theorem c3_not_attached_no_set_get (b : Board) (env : Env) (c : String)
    (hf : format_command b.power_source = .ok c)
    (hc : containsSub (env.run (listCmdLine c)).stdout b.yk_serial_number = false) :
    power_off b.name b.yk_serial_number b.yk_port_number b.power_source env
      = (.error (boardNotAttached b.yk_serial_number), [Call.list c]) ∧
    power_on b.name b.yk_serial_number b.yk_port_number b.power_source env
      = (.error (boardNotAttached b.yk_serial_number), [Call.list c]) ∧
    is_powered b env
      = (.error (boardNotAttached b.yk_serial_number), [Call.list c]) := by
  refine ⟨?_, ?_, ?_⟩
  · unfold power_off; rw [hf]; simp [hc]
  · unfold power_on; rw [hf]; simp [hc]
  · unfold is_powered; rw [hf]; simp [hc]

/-- Claim C3 witness: with a listing output that does not mention serial
`S1`, all three operations report the board as not attached after the
single list call. -/
theorem c3_not_attached_no_set_get_witness :
    power_off "icicle" "S1" "1" "usb" envNotAttached
      = (.error (boardNotAttached "S1"), [Call.list "ykushcmd ykush"]) ∧
    power_on "icicle" "S1" "1" "usb" envNotAttached
      = (.error (boardNotAttached "S1"), [Call.list "ykushcmd ykush"]) ∧
    is_powered usbBoard envNotAttached
      = (.error (boardNotAttached "S1"), [Call.list "ykushcmd ykush"]) :=
  c3_not_attached_no_set_get usbBoard envNotAttached "ykushcmd ykush"
    (by rfl) (by rfl)

/-- Claim C4 counterexample: when the get-state command's exit status
signals failure and the on/off marker is absent, `port_status` returns the
very same plain `failed to get port status` error it returns when the
marker is present — no distinct ambiguous-port-state condition exists
anywhere in the code. -/
theorem c4_port_status_counterexample :
    port_status "S1" "1" "ykurcmd" envFailBlank
      = (.error portStatusFailed, [Call.get "ykurcmd" "S1" "1"]) ∧
    port_status "S1" "1" "ykurcmd" envFailOnMarker
      = port_status "S1" "1" "ykurcmd" envFailBlank := by
  exact ⟨rfl, rfl⟩

/-- Claim C4 as amended: when the get-state command succeeds, any output
not containing the `ON` marker is reported as off; when the exit status
signals failure, `port_status` returns the plain `failed to get port
status` error regardless of the output text. -/
theorem c4_port_status_off_or_plain_failure (sn pn c : String) (env : Env) :
    ((env.run (getCmdLine c sn pn)).success = true →
      containsSub (env.run (getCmdLine c sn pn)).stdout "ON" = false →
      port_status sn pn c env = (.ok false, [Call.get c sn pn])) ∧
    ((env.run (getCmdLine c sn pn)).success = false →
      port_status sn pn c env
        = (.error portStatusFailed, [Call.get c sn pn])) := by
  constructor
  · intro hs hc
    unfold port_status
    simp [hs, hc]
  · intro hs
    unfold port_status
    simp [hs]

/-- Claim C4 witness: a succeeding get-state call printing `S1 OFF` reads
as off, and a failing one yields the plain port-status error. -/
theorem c4_port_status_off_or_plain_failure_witness :
    port_status "S1" "1" "ykurcmd" envOffState
      = (.ok false, [Call.get "ykurcmd" "S1" "1"]) ∧
    port_status "S1" "1" "ykurcmd" envFailOnMarker
      = (.error portStatusFailed, [Call.get "ykurcmd" "S1" "1"]) :=
  ⟨(c4_port_status_off_or_plain_failure "S1" "1" "ykurcmd" envOffState).1
      (by rfl) (by rfl),
   (c4_port_status_off_or_plain_failure "S1" "1" "ykurcmd" envFailOnMarker).2
      (by rfl)⟩

/-!  Helper lemma for the fleet sweep. -/

theorem goodnightLoop_all_string_keys (load : Except LabError Value) (env : Env) :
    ∀ entries : List (Value × Value),
      (∀ kv ∈ entries, (Value.as_str kv.1).isSome) →
      goodnightLoop entries load env =
        (.ok (), entries.foldr
          (fun kv acc =>
            (power_off_board ((Value.as_str kv.1).getD "") load env).2 ++ acc)
          []) := by
  intro entries
  induction entries with
  | nil => intro _; rfl
  | cons kv rest ih =>
    intro h
    obtain ⟨s, hs⟩ := Option.isSome_iff_exists.mp (h kv (by simp))
    have hrest := ih (fun kv2 hkv2 => h kv2 (by simp [hkv2]))
    rcases kv with ⟨k, v⟩
    simp only at hs
    unfold goodnightLoop
    rw [hs, hrest]
    simp [hs]

/-- Claim C5 counterexample: a well-formed registry whose `boards` mapping
has the non-string key `1` makes `goodnight` panic (the `unwrap` of
`as_str`) instead of returning success, even though the registry itself
loaded. -/
theorem c5_goodnight_counterexample :
    Value.get cfgBadKey "boards" = some (.map [(.num 1, .null)]) ∧
    goodnight (.ok cfgBadKey) envAllGood
      = (.panicked "called Option unwrap on a None value", []) := ⟨rfl, rfl⟩

/-- Claim C5 as amended: `goodnight` fails before touching any board when
the registry cannot be loaded (load error, missing `boards` key, or a
non-mapping `boards` value); when the registry loads and every board key
is a string, it invokes `power_off` for every board in registry order,
swallowing per-board failures, and returns success (a non-string key
instead panics). -/
theorem c5_goodnight_sweep (load : Except LabError Value) (env : Env) :
    (∀ e, load = .error e → goodnight load env = (.err e, [])) ∧
    (∀ cfg, load = .ok cfg → cfg.get "boards" = none →
      goodnight load env = (.err (.config "No boards found"), [])) ∧
    (∀ cfg bv, load = .ok cfg → cfg.get "boards" = some bv →
      bv.as_mapping = none →
      goodnight load env = (.err (.ykmd "No boards found"), [])) ∧
    (∀ cfg bv entries, load = .ok cfg → cfg.get "boards" = some bv →
      bv.as_mapping = some entries →
      (∀ kv ∈ entries, (Value.as_str kv.1).isSome) →
      goodnight load env =
        (.ok (), entries.foldr
          (fun kv acc =>
            (power_off_board ((Value.as_str kv.1).getD "") load env).2 ++ acc)
          [])) := by
  refine ⟨?_, ?_, ?_, ?_⟩
  · intro e he
    subst he
    rfl
  · intro cfg hl hb
    subst hl
    unfold goodnight
    simp [hb]
  · intro cfg bv hl hb hm
    subst hl
    unfold goodnight
    simp [hb, hm]
  · intro cfg bv entries hl hb hm hkeys
    subst hl
    unfold goodnight
    simp only [hb, hm]
    exact goodnightLoop_all_string_keys (.ok cfg) env entries hkeys

/-- Claim C5 witness: sweeping a two-board registry in which board `a`
powers down and board `b` fails with an unsupported hub kind still powers
down `a`, still attempts `b`, and returns success. -/
theorem c5_goodnight_sweep_witness :
    goodnight (.ok cfgTwoBoards) envAllGood
      = (.ok (), [Call.list "ykushcmd ykush",
                  Call.set "ykushcmd ykush" "S1" 'd' "1"]) := by
  have h := (c5_goodnight_sweep (.ok cfgTwoBoards) envAllGood).2.2.2
    cfgTwoBoards (.map
      [(.str "a", .map [(.str "serial", .str "S1"), (.str "port", .str "1"),
                        (.str "type", .str "usb")]),
       (.str "b", .map [(.str "serial", .str "S2"), (.str "port", .str "2"),
                        (.str "type", .str "gpio")])])
    [(.str "a", .map [(.str "serial", .str "S1"), (.str "port", .str "1"),
                      (.str "type", .str "usb")]),
     (.str "b", .map [(.str "serial", .str "S2"), (.str "port", .str "2"),
                      (.str "type", .str "gpio")])]
    rfl rfl rfl (by decide)
  exact h

/-!  Helper facts about the boot-verification streams. -/

theorem marks_streamSixInOrder : MarksInOrder bootMarkers streamSixInOrder :=
  MarksInOrder.cons markerBootloader
    [markerKernel, markerInit, markerLogin, markerPassword, markerPrompt] []
    (markerKernel ++ (markerInit ++ (markerLogin ++
      (markerPassword ++ (markerPrompt ++ [])))))
    (MarksInOrder.cons markerKernel
      [markerInit, markerLogin, markerPassword, markerPrompt] []
      (markerInit ++ (markerLogin ++ (markerPassword ++ (markerPrompt ++ []))))
      (MarksInOrder.cons markerInit
        [markerLogin, markerPassword, markerPrompt] []
        (markerLogin ++ (markerPassword ++ (markerPrompt ++ [])))
        (MarksInOrder.cons markerLogin [markerPassword, markerPrompt] []
          (markerPassword ++ (markerPrompt ++ []))
          (MarksInOrder.cons markerPassword [markerPrompt] []
            (markerPrompt ++ [])
            (MarksInOrder.cons markerPrompt [] [] []
              (MarksInOrder.nil []))))))

theorem marks_streamFiveInOrder : MarksInOrder fiveBootMarkers streamFiveInOrder :=
  MarksInOrder.cons markerBootloader
    [markerKernel, markerInit, markerLogin, markerPassword] []
    (markerKernel ++ (markerInit ++ (markerLogin ++ (markerPassword ++ []))))
    (MarksInOrder.cons markerKernel
      [markerInit, markerLogin, markerPassword] []
      (markerInit ++ (markerLogin ++ (markerPassword ++ [])))
      (MarksInOrder.cons markerInit [markerLogin, markerPassword] []
        (markerLogin ++ (markerPassword ++ []))
        (MarksInOrder.cons markerLogin [markerPassword] []
          (markerPassword ++ [])
          (MarksInOrder.cons markerPassword [] [] []
            (MarksInOrder.nil [])))))

/-- Claim C6 counterexample: a stream containing exactly the five boot
markers of the specification, in order, does not bring `expect_boot` to
the logged-in terminal state — the session stalls awaiting the sixth
pattern, the shell prompt, until the timeout. -/
theorem c6_boot_order_counterexample :
    MarksInOrder fiveBootMarkers streamFiveInOrder ∧
    expect_boot streamFiveInOrder = .awaitingPrompt ∧
    expect_boot streamFiveInOrder ≠ .loggedIn :=
  ⟨marks_streamFiveInOrder, by decide, by decide⟩

/-- Claim C6 as amended: the boot session matches its six expected
patterns strictly in order — any stream containing the five boot markers
followed by the shell prompt marker, in order, reaches the logged-in
state; the reversed-order stream stalls awaiting the kernel marker (the
one expected next) until the 120000 ms timeout. -/
theorem c6_boot_marker_order :
    (∀ s : List Char, MarksInOrder bootMarkers s → expect_boot s = .loggedIn) ∧
    expect_boot streamReversed = .awaitingKernel ∧
    bootTimeoutMillis = 120000 := by
  refine ⟨?_, by decide, rfl⟩
  intro s h
  unfold expect_boot
  rw [expectSeq_complete bootMarkers s h]
  rfl

/-- Claim C6 witness: the six markers concatenated in order drive the
session to the logged-in state. -/
theorem c6_boot_marker_order_witness : expect_boot streamSixInOrder = .loggedIn :=
  (c6_boot_marker_order).1 streamSixInOrder marks_streamSixInOrder

/-- Claim C7 counterexample: the CLI rejects `status` and `reset` as an
invalid function, and dispatches `on` to the reboot sequence rather than
to a plain power-on. -/
theorem c7_cli_counterexample :
    mainDispatch "status" = .invalidFunction ∧
    mainDispatch "reset" = .invalidFunction ∧
    mainDispatch "on" = .rebootSeq := ⟨rfl, rfl, rfl⟩

/-- Claim C7 as amended: the CLI takes its command through the
`--function` flag (default `off`), with `--config` defaulting to
`config.yaml` and `--board` to `icicle`; `off` dispatches to power-off,
`on` and `reboot` both dispatch to the reboot sequence, `goodnight` to
the sweep, and every other command — including `status` and `reset` — is
surfaced as an invalid-function error (non-zero exit). -/
theorem c7_cli_dispatch :
    mainDispatch "off" = .turnOff ∧
    mainDispatch "on" = .rebootSeq ∧
    mainDispatch "reboot" = .rebootSeq ∧
    mainDispatch "goodnight" = .goodnightSweep ∧
    (∀ f, f ≠ "off" → f ≠ "on" → f ≠ "reboot" → f ≠ "goodnight" →
      mainDispatch f = .invalidFunction) ∧
    argsConfigDefault = "config.yaml" ∧
    argsBoardDefault = "icicle" ∧
    argsFunctionDefault = "off" := by
  refine ⟨rfl, rfl, rfl, rfl, ?_, rfl, rfl, rfl⟩
  intro f h1 h2 h3 h4
  unfold mainDispatch
  simp [h1, h2, h3, h4]

/-- Claim C7 witness: an arbitrary unknown command is rejected. -/
theorem c7_cli_dispatch_witness : mainDispatch "help" = .invalidFunction :=
  c7_cli_dispatch.2.2.2.2.1 "help" (by decide) (by decide) (by decide) (by decide)

/-!  Helper lemmas about the registry loader. -/

theorem as_str_some {v : Value} {s : String} (h : v.as_str = some s) :
    v = .str s := by
  cases v <;> simp_all [Value.as_str]

theorem populate_uart_fields (b : Board) (cfg : Value) (u : Board)
    (h : populate_uart b cfg = .ok u) :
    u.yk_port_number = b.yk_port_number ∧ u.power_source = b.power_source ∧
    u.powered = b.powered ∧ u.name = b.name ∧
    (∃ s, cfg.get "serial" = some (.str s) ∧ u.yk_serial_number = s) ∧
    (∃ uc, cfg.get "uart" = some uc) := by
  unfold populate_uart at h
  cases hs : cfg.get "serial" with
  | none => simp [hs] at h
  | some sv =>
    simp only [hs] at h
    cases hss : sv.as_str with
    | none => simp [hss] at h
    | some serial =>
      simp only [hss] at h
      cases hu : cfg.get "uart" with
      | none => simp [hu] at h
      | some uc =>
        simp only [hu] at h
        cases hp : uc.get "pattern" with
        | none => simp [hp] at h
        | some pv =>
          simp only [hp] at h
          cases hps : pv.as_str with
          | none => simp [hps] at h
          | some pat =>
            simp only [hps] at h
            cases hpr : uc.get "primary" with
            | none => simp [hpr] at h
            | some prv =>
              simp only [hpr] at h
              cases hprs : prv.as_str with
              | none => simp [hprs] at h
              | some prim =>
                simp only [hprs] at h
                injection h with h
                subst h
                refine ⟨rfl, rfl, rfl, rfl, ⟨serial, ?_, rfl⟩, ⟨uc, rfl⟩⟩
                rw [as_str_some hss]

theorem populate_board_fields (b0 : Board) (cfg : Value) (b : Board)
    (h : populate_board b0 cfg = .ok b) :
    b.powered = b0.powered ∧ b.name = b0.name ∧
    cfg.get "serial" = some (.str b.yk_serial_number) ∧
    cfg.get "port" = some (.str b.yk_port_number) ∧
    cfg.get "type" = some (.str b.power_source) ∧
    (cfg.get "uart" = none → b.primary_uart = b0.primary_uart) := by
  unfold populate_board at h
  cases hs : cfg.get "serial" with
  | none => simp [hs] at h
  | some sv =>
    simp only [hs] at h
    cases hss : sv.as_str with
    | none => simp [hss] at h
    | some serial =>
      simp only [hss] at h
      cases hp : cfg.get "port" with
      | none => simp [hp] at h
      | some pv =>
        simp only [hp] at h
        cases hps : pv.as_str with
        | none => simp [hps] at h
        | some port =>
          simp only [hps] at h
          cases ht : cfg.get "type" with
          | none => simp [ht] at h
          | some tv =>
            simp only [ht] at h
            cases hts : tv.as_str with
            | none => simp [hts] at h
            | some ptype =>
              simp only [hts] at h
              split at h
              · next updated hu =>
                injection h with h
                subst h
                obtain ⟨hport, hsrc, hpow, hname, ⟨s2, hs2, hus⟩, ⟨uc, huc⟩⟩ :=
                  populate_uart_fields _ cfg updated hu
                have hserial : updated.yk_serial_number = serial := by
                  rw [hs, as_str_some hss] at hs2
                  injection hs2 with hs2
                  injection hs2 with hs2
                  rw [hus, ← hs2]
                refine ⟨hpow.trans rfl, hname.trans rfl, ?_, ?_, ?_, ?_⟩
                · rw [hserial, as_str_some hss]
                · rw [hport.trans rfl, as_str_some hps]
                · rw [hsrc.trans rfl, as_str_some hts]
                · intro hn
                  rw [hn] at huc
                  exact absurd huc (by simp)
              · next e hu =>
                injection h with h
                subst h
                refine ⟨rfl, rfl, ?_, ?_, ?_, fun _ => rfl⟩
                · rw [as_str_some hss]
                · rw [as_str_some hps]
                · rw [as_str_some hts]

theorem boardsFromEntries_powered :
    ∀ (entries : List (Value × Value)) (bs : List Board),
      boardsFromEntries entries = .ok bs → ∀ bd ∈ bs, bd.powered = false := by
  intro entries
  induction entries with
  | nil =>
    intro bs h bd hbd
    unfold boardsFromEntries at h
    injection h with h
    subst h
    simp at hbd
  | cons kv rest ih =>
    intro bs h bd hbd
    rcases kv with ⟨k, v⟩
    unfold boardsFromEntries at h
    cases hk : k.as_str with
    | none => simp [hk] at h
    | some nm =>
      simp only [hk] at h
      split at h
      · next e hpb => exact absurd h (by simp)
      · next b1 hpb =>
        split at h
        · next bs1 hrest =>
          injection h with h
          subst h
          rcases List.mem_cons.mp hbd with rfl | hmem
          · have := (populate_board_fields _ v bd hpb).1
            exact this.trans rfl
          · exact ih bs1 hrest bd hmem
        · next oth hne hrest => simp_all

/-- Claim C8 counterexample: a board record missing the `uart` table does
not fail fast — `populate_board` succeeds and silently leaves
`primary_uart` at the default placeholder value. -/
theorem c8_uart_default_counterexample :
    Value.get cfgNoUartBoard "uart" = none ∧
    populate_board Board.default cfgNoUartBoard = .ok boardNoUart ∧
    boardNoUart.primary_uart = Board.default.primary_uart := ⟨rfl, rfl, rfl⟩

/-- Claim C8 as amended: the control fields `serial`, `port` and `type`
are required — a record without them fails fast with a config error and a
populated record draws all three values from the config — but the uart
fields are optional: when the `uart` table is absent, `populate_uart`'s
error is discarded and `primary_uart` silently keeps its prior (default)
value. -/
theorem c8_required_fields_uart_optional (b0 : Board) (cfg : Value) :
    (cfg.get "serial" = none →
      populate_board b0 cfg = .error (.config "No serial number found")) ∧
    (∀ b, populate_board b0 cfg = .ok b →
      cfg.get "serial" = some (.str b.yk_serial_number) ∧
      cfg.get "port" = some (.str b.yk_port_number) ∧
      cfg.get "type" = some (.str b.power_source) ∧
      (cfg.get "uart" = none → b.primary_uart = b0.primary_uart)) := by
  constructor
  · intro hs
    unfold populate_board
    simp [hs]
  · intro b h
    obtain ⟨_, _, h3, h4, h5, h6⟩ := populate_board_fields b0 cfg b h
    exact ⟨h3, h4, h5, h6⟩

/-- Claim C8 witness: an empty config fails fast on the missing serial
number, and a record with the three control fields draws them from the
config. -/
theorem c8_required_fields_uart_optional_witness :
    populate_board Board.default Value.null
      = .error (.config "No serial number found") ∧
    Value.get cfgNoUartBoard "serial" = some (.str "S1") ∧
    Value.get cfgNoUartBoard "port" = some (.str "1") ∧
    Value.get cfgNoUartBoard "type" = some (.str "usb") := by
  refine ⟨(c8_required_fields_uart_optional Board.default Value.null).1 rfl,
    ?_, ?_, ?_⟩
  · exact ((c8_required_fields_uart_optional Board.default cfgNoUartBoard).2
      boardNoUart rfl).1
  · exact ((c8_required_fields_uart_optional Board.default cfgNoUartBoard).2
      boardNoUart rfl).2.1
  · exact ((c8_required_fields_uart_optional Board.default cfgNoUartBoard).2
      boardNoUart rfl).2.2.1

/-- Claim C9: boards loaded from the registry always carry
`powered = false`, and `is_powered` never consults the field — its result
is identical whatever value `powered` holds, because the power state is
re-queried from the hub tool. -/
theorem c9_powered_never_consulted (b : Board) (x : Bool) (env : Env)
    (name : String) (load : Except LabError Value) :
    is_powered { b with powered := x } env = is_powered b env ∧
    (∀ bd, get_board_from_config name load = .ok bd → bd.powered = false) ∧
    (∀ bs, get_all_boards_from_config load = .ok bs →
      ∀ bd ∈ bs, bd.powered = false) := by
  refine ⟨rfl, ?_, ?_⟩
  · intro bd h
    unfold get_board_from_config at h
    cases load with
    | error e => simp at h
    | ok cfg =>
      simp only at h
      cases hb : cfg.get "boards" with
      | none => simp [hb] at h
      | some bv =>
        simp only [hb] at h
        cases hbc : bv.get name with
        | none => simp [hbc] at h
        | some bc =>
          simp only [hbc] at h
          exact ((populate_board_fields _ bc bd h).1).trans rfl
  · intro bs h bd hbd
    unfold get_all_boards_from_config at h
    cases load with
    | error e => simp at h
    | ok cfg =>
      simp only at h
      cases hb : cfg.get "boards" with
      | none => simp [hb] at h
      | some bv =>
        simp only [hb] at h
        cases hm : bv.as_mapping with
        | none => simp [hm] at h
        | some entries =>
          simp only [hm] at h
          exact boardsFromEntries_powered entries bs h bd hbd

/-- Claim C9 witness: flipping `powered` on a concrete board does not
change `is_powered`'s behaviour, and the board loaded for entry `a` of
the two-board registry carries `powered = false`. -/
theorem c9_powered_never_consulted_witness :
    is_powered { usbBoard with powered := true } envAllGood
      = is_powered usbBoard envAllGood ∧
    boardA.powered = false :=
  ⟨(c9_powered_never_consulted usbBoard true envAllGood "a"
      (.ok cfgTwoBoards)).1,
   (c9_powered_never_consulted usbBoard true envAllGood "a"
      (.ok cfgTwoBoards)).2.1 boardA rfl⟩

/-- Claim C10: with a well-formed YAML config whose top-level `boards` key
holds a non-mapping value, `get_all_boards_from_config` panics on the
`unwrap` of `as_mapping` while `goodnight` checks the same condition and
returns an error instead. -/
theorem c10_not_mapping_panic :
    Value.get cfgNotMapping "boards" = some (.str "oops") ∧
    Value.as_mapping (.str "oops") = none ∧
    get_all_boards_from_config (.ok cfgNotMapping)
      = .panicked "called Option unwrap on a None value" ∧
    goodnight (.ok cfgNotMapping) envAllGood
      = (.err (.ykmd "No boards found"), []) := ⟨rfl, rfl, rfl, rfl⟩

end Lab
